import Mathlib

set_option autoImplicit false

/-!
Verification of the apr_dbd pluggable database-driver abstraction layer,
embedded from src/libs/apr-util/include/private/apr_dbd_internal.h.

The header defines the driver contract `struct apr_dbd_driver_t` as a table
of operation slots with normative doc comments; the concrete backend driver
implementations are outside this repository's sources.  Signatures and the
behaviour fixed by the header's own doc comments are embedded from the
header; behaviour only the specification describes is modelled from the
spec and marked as such in the doc comments below.
-/

namespace AprDbd

/-- Row: one result tuple; each column holds either text or the SQL NULL
marker (get_entry returns a string or the NULL pointer). -/
abbrev Row := List (Option String)

/-- ResultSet: rows of one select, in random-access or sequential mode
(the `random` flag of the select slot), with a forward cursor position. -/
structure ResultSet where
  random : Bool
  rows : List Row
  pos : Nat
deriving DecidableEq

/-- num_tuples, from the header: number of rows, or -1 if the results are
asynchronous (sequential mode). -/
def num_tuples (res : ResultSet) : Int :=
  if res.random then (res.rows.length : Int) else -1

/-- num_cols, from the header: number of columns in a results set. -/
def num_cols (res : ResultSet) : Int :=
  ((res.rows.headD []).length : Int)

/-- get_row, from the header: rownum is a row number, or -1 for "next row";
it is ignored if random access is not supported.  Returns 0 for success,
-1 for rownum out of range or data finished.  The result is the status,
the row produced (if any), and the result set with its advanced cursor. -/
def get_row (res : ResultSet) (rownum : Int) : Int × Option Row × ResultSet :=
  if res.random = true ∧ rownum ≠ -1 then
    if 0 ≤ rownum ∧ rownum < (res.rows.length : Int) then
      (0, res.rows.get? rownum.toNat, res)
    else
      (-1, none, res)
  else
    match res.rows.get? res.pos with
    | some r => (0, some r, { res with pos := res.pos + 1 })
    | none => (-1, none, res)

/-- Statuses of k successive get_row(-1) calls on a result set. -/
def run_get_rows : ResultSet → Nat → List Int
  | _, 0 => []
  | res, Nat.succ k =>
      (get_row res (-1)).1 :: run_get_rows (get_row res (-1)).2.2 k

/-- Result set after a list of get_row calls with the given rownum args. -/
def apply_get_rows (res : ResultSet) (calls : List Int) : ResultSet :=
  calls.foldl (fun r n => (get_row r n).2.2) res

/-- get_entry, from the header signature: returns the entry of the row at
the given column as a string, the NULL pointer standing both for a SQL
NULL value and for an out-of-range column. -/
def get_entry (row : Row) (col : Int) : Option String :=
  if 0 ≤ col then
    match row.get? col.toNat with
    | some v => v
    | none => none
  else
    none

/-- Operation slots of struct apr_dbd_driver_t, in header order (the name
field is identity, not an operation). -/
inductive DbdOp
  | init
  | native_handle
  | open_conn
  | check_conn
  | close
  | set_dbname
  | start_transaction
  | end_transaction
  | query
  | select
  | num_cols
  | num_tuples
  | get_row
  | get_entry
  | error
  | escape
  | prepare
  | pvquery
  | pvselect
  | pquery
  | pselect
deriving DecidableEq

/-- Return kind of a contract slot: a numeric status code (int or
apr_status_t, 0 for success), a pointer value, a plain int count, or no
return value at all. -/
inductive RetKind
  | intStatus
  | pointerVal
  | intCount
  | voidRet
deriving DecidableEq

/-- Return kinds transcribed from the C signatures of apr_dbd_internal.h:
init returns void; native_handle void*; open apr_dbd_t* (NULL on error);
check_conn and close apr_status_t; num_cols and num_tuples int counts;
get_entry, error and escape const char*; every other slot an int status. -/
def return_kind : DbdOp → RetKind
  | .init => .voidRet
  | .native_handle => .pointerVal
  | .open_conn => .pointerVal
  | .check_conn => .intStatus
  | .close => .intStatus
  | .set_dbname => .intStatus
  | .start_transaction => .intStatus
  | .end_transaction => .intStatus
  | .query => .intStatus
  | .select => .intStatus
  | .num_cols => .intCount
  | .num_tuples => .intCount
  | .get_row => .intStatus
  | .get_entry => .pointerVal
  | .error => .pointerVal
  | .escape => .pointerVal
  | .prepare => .intStatus
  | .pvquery => .intStatus
  | .pvselect => .intStatus
  | .pquery => .intStatus
  | .pselect => .intStatus

/-- Whether a slot reports its outcome as a numeric status code. -/
def returns_status (op : DbdOp) : Bool :=
  return_kind op == RetKind.intStatus

/-- Transaction handle; the error flag records whether an earlier
operation inside the bracket failed. -/
structure ModelTrans where
  errorFlag : Bool
deriving DecidableEq

/-- Outcome of ending a transaction. -/
inductive TxOutcome
  | committed
  | rolledBack
  | noop
deriving DecidableEq

/-- Modelled from the spec: start_transaction of a backend (the driver
implementations are not in src/).  With transaction support it creates a
fresh transaction with a clear error flag and returns status 0; a backend
without transaction support implements it as a no-op returning success. -/
def start_transaction (txSupport : Bool) : Option ModelTrans × Int :=
  if txSupport then (some { errorFlag := false }, 0) else (none, 0)

/-- Modelled from the spec: end_transaction of a backend (the driver
implementations are not in src/).  Per the header, it commits on success
and rolls back on error, and may be a no-op: with transaction support it
commits when the error flag is clear and rolls back when it is set; a
backend without transaction support implements it as a no-op returning
success. -/
def end_transaction (txSupport : Bool) (t : ModelTrans) : TxOutcome × Int :=
  if txSupport then
    if t.errorFlag then (TxOutcome.rolledBack, 0) else (TxOutcome.committed, 0)
  else
    (TxOutcome.noop, 0)

/-- Connection lifecycle states of the spec state machine. -/
inductive ConnState
  | closed
  | opened
  | inTransaction
deriving DecidableEq

/-- Connection: the caller-observable fields of a live session. -/
structure ModelConn where
  params : String
  dbname : String
  alive : Bool
  state : ConnState
  txError : Bool
deriving DecidableEq

/-- Modelled from the spec: check_conn is a liveness probe returning
APR_SUCCESS (0) or an error status; it does not mutate connection state
on success. -/
def check_conn (c : ModelConn) : Int × ModelConn :=
  if c.alive then (0, c) else (20014, c)

/-- Modelled from the spec: the state transition of start_transaction on
the connection.  The backend attempt succeeds or fails (parameter `ok`);
success moves Open to InTransaction, failure leaves the connection Open,
and calling outside Open is a caller error that changes nothing. -/
def conn_start_transaction (ok : Bool) (c : ModelConn) : Int × ModelConn :=
  match c.state with
  | ConnState.opened =>
      if ok then (0, { c with state := ConnState.inTransaction, txError := false })
      else (1, c)
  | _ => (1, c)

/-- Modelled from the spec: the state transition of end_transaction on the
connection.  Whatever the backend outcome (commit, rollback, or failure,
parameter `ok`), the connection returns to Open; calling outside
InTransaction is a caller error that changes nothing. -/
def conn_end_transaction (ok : Bool) (c : ModelConn) : Int × ModelConn :=
  match c.state with
  | ConnState.inTransaction =>
      ((if ok then 0 else 1), { c with state := ConnState.opened })
  | _ => (1, c)

/-- Driver: name, the optional once-only init slot (None models the NULL
function pointer the header allows), modelled as an effect on a process
log so that running it is observable. -/
structure ModelDriver where
  name : String
  init : Option (List String → List String)

/-- DriverRegistry: registered drivers by name, the set of backends whose
one-time init already ran, and the process log init effects append to. -/
structure ModelRegistry where
  drivers : List (String × ModelDriver)
  initialized : List String
  log : List String

/-- Modelled from the spec: registry lookup with lazy one-time per-backend
init.  An unknown name fails; the first use of a known driver runs its
init slot exactly once when present and treats an absent (NULL) init as a
successful no-op, never invoking it. -/
def dbd_get_driver (reg : ModelRegistry) (nm : String) :
    ModelRegistry × Option ModelDriver :=
  match reg.drivers.lookup nm with
  | none => (reg, none)
  | some d =>
      if nm ∈ reg.initialized then (reg, some d)
      else
        match d.init with
        | none =>
            ({ reg with initialized := nm :: reg.initialized }, some d)
        | some f =>
            ({ reg with initialized := nm :: reg.initialized,
                        log := f reg.log }, some d)

/-- Prepared-statement template: literal SQL text interleaved with
positional parameter placeholders, consumed in order. -/
inductive SqlTok
  | lit (s : String)
  | param
deriving DecidableEq

/-- PreparedStatement: the compiled template. -/
structure ModelPrepared where
  toks : List SqlTok
deriving DecidableEq

/-- Modelled from the spec: the variadic calling convention (pvquery and
pvselect walk the va_list), binding each placeholder to the next argument
taken from the front of the list; running out of arguments fails. -/
def bind_va : List SqlTok → List String → Option String
  | [], _ => some ""
  | SqlTok.lit s :: ts, args => Option.map (fun r => s ++ r) (bind_va ts args)
  | SqlTok.param :: _, [] => none
  | SqlTok.param :: ts, a :: args =>
      Option.map (fun r => a ++ r) (bind_va ts args)

/-- Modelled from the spec: the array calling convention (pquery and
pselect index the argument array), binding the i-th placeholder to entry i
of the array; an index past the array fails. -/
def bind_arr_from : List SqlTok → Nat → List String → Option String
  | [], _, _ => some ""
  | SqlTok.lit s :: ts, i, args =>
      Option.map (fun r => s ++ r) (bind_arr_from ts i args)
  | SqlTok.param :: ts, i, args =>
      match args.get? i with
      | none => none
      | some a => Option.map (fun r => a ++ r) (bind_arr_from ts (i + 1) args)

/-- The database a connection reaches; backend-native representation is
opaque to the core, a list of rows suffices for the model. -/
abbrev Db := List Row

/-- Modelled from the spec: a backend engine, out of scope for the core,
exposed only as the execution of bound statement text (run: status, rows
affected, new database; run_select: status and result set). -/
structure ModelBackend where
  run : String → Db → Int × Int × Db
  run_select : String → Bool → Db → Int × Option ResultSet

/-- pquery: bind by argument count plus argument array, then execute. -/
def pquery (b : ModelBackend) (stmt : ModelPrepared) (nargs : Nat)
    (args : List String) (db : Db) : Int × Int × Db :=
  match bind_arr_from stmt.toks 0 (args.take nargs) with
  | none => (1, 0, db)
  | some text => b.run text db

/-- pvquery: bind by walking the variadic argument list, then execute. -/
def pvquery (b : ModelBackend) (stmt : ModelPrepared)
    (args : List String) (db : Db) : Int × Int × Db :=
  match bind_va stmt.toks args with
  | none => (1, 0, db)
  | some text => b.run text db

/-- pselect: bind by argument count plus argument array, then select. -/
def pselect (b : ModelBackend) (stmt : ModelPrepared) (random : Bool)
    (nargs : Nat) (args : List String) (db : Db) : Int × Option ResultSet :=
  match bind_arr_from stmt.toks 0 (args.take nargs) with
  | none => (1, none)
  | some text => b.run_select text random db

/-- pvselect: bind by walking the variadic argument list, then select. -/
def pvselect (b : ModelBackend) (stmt : ModelPrepared) (random : Bool)
    (args : List String) (db : Db) : Int × Option ResultSet :=
  match bind_va stmt.toks args with
  | none => (1, none)
  | some text => b.run_select text random db

/-! Theorems about the result-set iteration contract. -/

theorem get_row_preserves (res : ResultSet) (n : Int) :
    ((get_row res n).2.2).random = res.random
    ∧ ((get_row res n).2.2).rows = res.rows := by
  unfold get_row
  by_cases h : res.random = true ∧ n ≠ -1
  · rw [if_pos h]
    by_cases h2 : 0 ≤ n ∧ n < (res.rows.length : Int)
    · rw [if_pos h2]; exact ⟨rfl, rfl⟩
    · rw [if_neg h2]; exact ⟨rfl, rfl⟩
  · rw [if_neg h]
    cases hg : res.rows.get? res.pos <;> simp [hg]

theorem run_get_rows_seq (rows : List Row) :
    ∀ (k pos : Nat),
      run_get_rows (ResultSet.mk false rows pos) k
        = List.replicate (min k (rows.length - pos)) 0
          ++ List.replicate (k - (rows.length - pos)) (-1) := by
  intro k
  induction k with
  | zero => intro pos; simp [run_get_rows]
  | succ k ih =>
      intro pos
      by_cases h : pos < rows.length
      · have hg : rows[pos]? = some rows[pos] := List.getElem?_eq_getElem h
        have h1 : get_row (ResultSet.mk false rows pos) (-1)
            = (0, some rows[pos], ResultSet.mk false rows (pos + 1)) := by
          simp [get_row, hg]
        simp only [run_get_rows, h1]
        rw [ih (pos + 1)]
        have e1 : min (k + 1) (rows.length - pos)
            = min k (rows.length - (pos + 1)) + 1 := by omega
        have e2 : (k + 1) - (rows.length - pos)
            = k - (rows.length - (pos + 1)) := by omega
        rw [e1, e2, List.replicate_succ, List.cons_append]
      · have hg : rows[pos]? = none := List.getElem?_eq_none (by omega)
        have h1 : get_row (ResultSet.mk false rows pos) (-1)
            = (-1, none, ResultSet.mk false rows pos) := by
          simp [get_row, hg]
        simp only [run_get_rows, h1]
        rw [ih pos]
        have e0 : rows.length - pos = 0 := by omega
        rw [e0]
        simp [List.replicate_succ]

/-- Claim C1 counterexample: on a sequential (non-random-access) result set
holding one row, get_row with rowNumber 5 does not fail with a range
error; the header says the rowNumber is ignored without random access, so
the call succeeds with status 0 and returns the next row. -/
theorem C1_counterexample :
    (get_row { random := false, rows := [[some "1"]], pos := 0 } 5).1 = 0
    ∧ (get_row { random := false, rows := [[some "1"]], pos := 0 } 5).2.1
        = some [some "1"] := by
  constructor <;> rfl

/-- Claim C1 (amended): in sequential mode the rowNumber argument of
get_row is ignored — every rowNumber behaves exactly like -1, "next row in
sequence" — and a rowNumber other than -1 actually selects a row by index
only in random-access mode, where an out-of-range index is a range error
(status -1 with no row). -/
theorem C1_seq_rownum_ignored (res : ResultSet) (rownum : Int) :
    (res.random = false → get_row res rownum = get_row res (-1))
    ∧ (res.random = true → rownum ≠ -1 →
        ¬(0 ≤ rownum ∧ rownum < (res.rows.length : Int)) →
        get_row res rownum = (-1, none, res)) := by
  constructor
  · intro h
    simp [get_row, h]
  · intro hr hn hrange
    simp [get_row, hr, hn, hrange]

/-- Witness for C1 at a concrete sequential result set and rowNumber 7. -/
theorem C1_seq_rownum_ignored_witness :
    get_row { random := false, rows := [[some "1"], [none]], pos := 0 } 7
      = get_row { random := false, rows := [[some "1"], [none]], pos := 0 } (-1) :=
  (C1_seq_rownum_ignored { random := false, rows := [[some "1"], [none]], pos := 0 } 7).1 rfl

/-- Claim C4 counterexample: exhausting a one-row sequential result set
yields statuses [0, -1], and the range error for an out-of-range index in
random-access mode is the same status -1 — the "no more data" status is
not distinct from the range-error status, contradicting the claim. -/
theorem C4_counterexample :
    run_get_rows { random := false, rows := [[some "a"]], pos := 0 } 2 = [0, -1]
    ∧ (get_row { random := true, rows := [[some "a"]], pos := 0 } 5).1 = -1 := by
  constructor <;> rfl

/-- Claim C4 (amended): for every sequential result set holding N rows,
calling get_row(-1) N+1 times yields N successful rows (status 0) followed
by one "no more data" status -1, which is distinct from success but is the
same code (-1) the contract uses for an out-of-range row index. -/
theorem C4_seq_exhaustion (rows : List Row) :
    run_get_rows { random := false, rows := rows, pos := 0 } (rows.length + 1)
      = List.replicate rows.length 0 ++ [-1]
    ∧ (-1 : Int) ≠ 0 := by
  constructor
  · have h := run_get_rows_seq rows (rows.length + 1) 0
    rw [h]
    have e1 : min (rows.length + 1) (rows.length - 0) = rows.length := by omega
    have e2 : (rows.length + 1) - (rows.length - 0) = 1 := by omega
    rw [e1, e2]
    rfl
  · decide

/-- Witness for C4 on a concrete two-row sequential result set. -/
theorem C4_seq_exhaustion_witness :
    run_get_rows { random := false, rows := [[some "a"], [none]], pos := 0 }
        (([[some "a"], [none]] : List Row).length + 1)
      = List.replicate ([[some "a"], [none]] : List Row).length 0 ++ [-1] :=
  (C4_seq_exhaustion [[some "a"], [none]]).1

/-- Claim C5 counterexample: get_entry returns a single pointer, so an
out-of-range column index yields the same NULL return as a SQL NULL
column value — the two cases are not distinguishable, contradicting the
claim: on the row [NULL, "x"], column 5 (out of range) and column 0 (a
NULL value) return the same thing. -/
theorem C5_counterexample :
    get_entry [none, some "x"] 5 = get_entry [none, some "x"] 0
    ∧ get_entry [none, some "x"] 0 = none := by
  constructor <;> rfl

/-- Claim C5 (amended): for every row and in-range column index, get_entry
returns that column's entry — its text or the explicit SQL NULL marker —
while an out-of-range column index (a caller error) yields the NULL
return, which is not distinguishable from a NULL column value. -/
theorem C5_get_entry (row : Row) (col : Int) :
    (∀ e : Option String, 0 ≤ col → row.get? col.toNat = some e →
        get_entry row col = e)
    ∧ (¬(0 ≤ col ∧ col < (row.length : Int)) → get_entry row col = none) := by
  constructor
  · intro e h0 hget
    unfold get_entry
    rw [if_pos h0, hget]
  · intro h
    by_cases h0 : 0 ≤ col
    · have hnone : row.get? col.toNat = none := by
        rw [List.get?_eq_none]
        omega
      unfold get_entry
      rw [if_pos h0, hnone]
    · unfold get_entry
      rw [if_neg h0]

/-- Witness for C5: a concrete text entry, NULL entry, and out-of-range
column. -/
theorem C5_get_entry_witness :
    get_entry [some "a", none] 0 = some "a" ∧ get_entry [some "a", none] 9 = none :=
  ⟨(C5_get_entry [some "a", none] 0).1 (some "a") (by decide) rfl,
   (C5_get_entry [some "a", none] 9).2 (by decide)⟩

/-- Claim C6: num_tuples returns -1 exactly when the result set is
sequential, returns the exact row count in random-access mode, and is
invariant under any sequence of get_row calls on the result set. -/
theorem C6_num_tuples_mode (res : ResultSet) :
    (num_tuples res = -1 ↔ res.random = false)
    ∧ (res.random = true → num_tuples res = (res.rows.length : Int))
    ∧ ∀ calls : List Int, num_tuples (apply_get_rows res calls) = num_tuples res := by
  refine ⟨?_, ?_, ?_⟩
  · cases hres : res.random
    · simp [num_tuples, hres]
    · simp [num_tuples, hres]
  · intro h
    simp [num_tuples, h]
  · intro calls
    induction calls generalizing res with
    | nil => rfl
    | cons n rest ih =>
        have h := get_row_preserves res n
        show num_tuples (apply_get_rows (get_row res n).2.2 rest) = _
        rw [ih]
        simp only [num_tuples, h.1, h.2]

/-- Witness for C6 at concrete result sets in both modes. -/
theorem C6_num_tuples_mode_witness :
    num_tuples { random := true, rows := [[some "a"], [none]], pos := 0 } = 2
    ∧ num_tuples
        (apply_get_rows { random := false, rows := [[some "a"]], pos := 0 } [-1, -1])
      = num_tuples { random := false, rows := [[some "a"]], pos := 0 } := by
  constructor
  · have h := (C6_num_tuples_mode { random := true, rows := [[some "a"], [none]], pos := 0 }).2.1 rfl
    simpa using h
  · exact (C6_num_tuples_mode { random := false, rows := [[some "a"]], pos := 0 }).2.2 [-1, -1]

/-! Theorems about the status-code convention of the contract. -/

/-- Claim C2 counterexample: not every slot of the driver contract reports
its outcome as a numeric status code — open returns a connection pointer
(NULL on error), and native_handle, get_entry, error and escape return
pointer values, as their C signatures show. -/
theorem C2_counterexample :
    ¬(∀ op : DbdOp, returns_status op = true)
    ∧ returns_status DbdOp.open_conn = false
    ∧ returns_status DbdOp.get_entry = false
    ∧ returns_status DbdOp.error = false
    ∧ returns_status DbdOp.escape = false
    ∧ returns_status DbdOp.native_handle = false := by
  refine ⟨fun h => ?_, rfl, rfl, rfl, rfl, rfl⟩
  have h2 := h DbdOp.open_conn
  simp [returns_status, return_kind] at h2

/-- Claim C2 (amended): the uniform numeric status-code convention — an
int or apr_status_t where 0 means success and nonzero only means failure —
holds for exactly the slots that are not init (void), not the
pointer-returning slots (native_handle, open, get_entry, error, escape),
and not the count-returning slots (num_cols, num_tuples); for the modelled
status-returning operations, the status is 0 exactly on success. -/
theorem C2_status_convention :
    (∀ op : DbdOp, returns_status op = true ↔
        (op ≠ DbdOp.init ∧ op ≠ DbdOp.native_handle ∧ op ≠ DbdOp.open_conn
          ∧ op ≠ DbdOp.num_cols ∧ op ≠ DbdOp.num_tuples ∧ op ≠ DbdOp.get_entry
          ∧ op ≠ DbdOp.error ∧ op ≠ DbdOp.escape))
    ∧ (∀ (res : ResultSet) (n : Int),
        ((get_row res n).1 = 0 ↔ ((get_row res n).2.1).isSome = true))
    ∧ (∀ c : ModelConn, ((check_conn c).1 = 0 ↔ c.alive = true)) := by
  refine ⟨?_, ?_, ?_⟩
  · intro op
    cases op <;> decide
  · intro res n
    unfold get_row
    by_cases h : res.random = true ∧ n ≠ -1
    · rw [if_pos h]
      by_cases h2 : 0 ≤ n ∧ n < (res.rows.length : Int)
      · rw [if_pos h2]
        have hlt : n.toNat < res.rows.length := by omega
        have hg : res.rows[n.toNat]? = some res.rows[n.toNat] :=
          List.getElem?_eq_getElem hlt
        simp [hg]
      · rw [if_neg h2]
        simp
    · rw [if_neg h]
      cases hg : res.rows.get? res.pos <;> simp [hg]
  · intro c
    cases hc : c.alive <;> simp [check_conn, hc]

/-- Connection used by concrete witnesses: live and Open. -/
def test_conn : ModelConn where
  params := "host=localhost"
  dbname := "mydb"
  alive := true
  state := ConnState.opened
  txError := false

/-- Connection used by concrete witnesses: live, inside a transaction
whose error flag is set. -/
def test_conn_tx : ModelConn where
  params := "host=localhost"
  dbname := "mydb"
  alive := true
  state := ConnState.inTransaction
  txError := true

/-- Witness for C2: query reports a status, and a successful probe on a
live connection reports status 0. -/
theorem C2_status_convention_witness :
    returns_status DbdOp.query = true ∧ (check_conn test_conn).1 = 0 :=
  ⟨(C2_status_convention.1 DbdOp.query).mpr (by decide),
   (C2_status_convention.2.2 test_conn).mpr rfl⟩

/-! Theorems about prepared-statement execution. -/

theorem list_drop_get (α : Type) :
    ∀ (args : List α) (i : Nat) (a : α), args.get? i = some a →
      args.drop i = a :: args.drop (i + 1) := by
  intro args
  induction args with
  | nil => intro i a h; simp at h
  | cons x xs ih =>
      intro i a h
      cases i with
      | zero =>
          simp at h
          rw [h]
          simp
      | succ j =>
          simp only [List.get?] at h
          have := ih j a h
          simp only [List.drop]
          exact this

theorem bind_arr_from_eq_va :
    ∀ (ts : List SqlTok) (i : Nat) (args : List String),
      bind_arr_from ts i args = bind_va ts (args.drop i) := by
  intro ts
  induction ts with
  | nil => intro i args; rfl
  | cons t ts ih =>
      intro i args
      cases t with
      | lit s =>
          simp only [bind_arr_from, bind_va, ih i args]
      | param =>
          cases hg : args.get? i with
          | none =>
              have hlen : args.length ≤ i := List.get?_eq_none.mp hg
              have hdrop : args.drop i = [] := List.drop_eq_nil_of_le hlen
              simp only [bind_arr_from, bind_va, hg, hdrop]
          | some a =>
              have hdrop : args.drop i = a :: args.drop (i + 1) :=
                list_drop_get String args i a hg
              simp only [bind_arr_from, bind_va, hg, hdrop, ih (i + 1) args]

/-- Claim C3: for every backend, prepared statement, logical argument
list and database, the array-based entry points (pquery/pselect, given the
argument count and array) and the variadic entry points (pvquery/pvselect,
walking the argument list) produce identical results — the same status and
rowsAffected for the query forms and the same status and result set for
the select forms. -/
theorem C3_pquery_pvquery_equiv (b : ModelBackend) (stmt : ModelPrepared)
    (args : List String) (db : Db) :
    pquery b stmt args.length args db = pvquery b stmt args db
    ∧ ∀ random : Bool,
        pselect b stmt random args.length args db = pvselect b stmt random args db := by
  have h : bind_arr_from stmt.toks 0 (args.take args.length) = bind_va stmt.toks args := by
    rw [List.take_length, bind_arr_from_eq_va, List.drop_zero]
  constructor
  · unfold pquery pvquery
    rw [h]
  · intro random
    unfold pselect pvselect
    rw [h]

/-- Backend used by concrete witnesses: rowsAffected is the length of the
bound text, a select materializes the database. -/
def test_backend : ModelBackend where
  run := fun s db => (0, (s.length : Int), db)
  run_select := fun _ random db => (0, some { random := random, rows := db, pos := 0 })

/-- Witness for C3: a concrete two-placeholder statement bound through
both calling conventions. -/
theorem C3_pquery_pvquery_equiv_witness :
    pquery test_backend { toks := [SqlTok.lit "a", SqlTok.param, SqlTok.param] }
        (["x", "y"] : List String).length ["x", "y"] []
      = pvquery test_backend { toks := [SqlTok.lit "a", SqlTok.param, SqlTok.param] }
        ["x", "y"] [] :=
  (C3_pquery_pvquery_equiv test_backend
    { toks := [SqlTok.lit "a", SqlTok.param, SqlTok.param] } ["x", "y"] []).1

/-! Theorems about transactions and the connection lifecycle. -/

/-- Claim C7: with transaction support, end_transaction commits exactly
when the transaction reached it without the error flag set and rolls back
otherwise; without transaction support, start_transaction and
end_transaction are no-ops returning success (status 0). -/
theorem C7_end_transaction_commit (t : ModelTrans) :
    ((end_transaction true t).1 = TxOutcome.committed ↔ t.errorFlag = false)
    ∧ ((end_transaction true t).1 = TxOutcome.rolledBack ↔ t.errorFlag = true)
    ∧ end_transaction false t = (TxOutcome.noop, 0)
    ∧ start_transaction false = (none, 0) := by
  obtain ⟨ef⟩ := t
  cases ef <;> decide

/-- Witness for C7 at concrete transactions with the flag clear and set. -/
theorem C7_end_transaction_commit_witness :
    (end_transaction true { errorFlag := false }).1 = TxOutcome.committed
    ∧ end_transaction false { errorFlag := true } = (TxOutcome.noop, 0) :=
  ⟨((C7_end_transaction_commit { errorFlag := false }).1).mpr rfl,
   (C7_end_transaction_commit { errorFlag := true }).2.2.1⟩

/-- Claim C8: a successful start_transaction moves an Open connection to
InTransaction and a failed one leaves it Open; end_transaction always
moves an InTransaction connection back to Open, whatever the backend
outcome — the connection is never left in a half-transacted state. -/
theorem C8_transaction_state_machine (c : ModelConn) (ok : Bool) :
    (c.state = ConnState.opened →
      (conn_start_transaction ok c).2.state
        = (if ok then ConnState.inTransaction else ConnState.opened))
    ∧ (c.state = ConnState.inTransaction →
      (conn_end_transaction ok c).2.state = ConnState.opened) := by
  obtain ⟨p, d, a, st, te⟩ := c
  constructor
  · intro h
    simp only at h
    subst h
    cases ok <;> rfl
  · intro h
    simp only at h
    subst h
    rfl

/-- Witness for C8 at a concrete Open connection and a concrete
InTransaction connection. -/
theorem C8_transaction_state_machine_witness :
    (conn_start_transaction true test_conn).2.state = ConnState.inTransaction
    ∧ (conn_end_transaction false test_conn_tx).2.state = ConnState.opened := by
  constructor
  · have h := (C8_transaction_state_machine test_conn true).1 rfl
    simpa using h
  · exact (C8_transaction_state_machine test_conn_tx false).2 rfl

/-- Claim C9: a check_conn call that returns success (status 0) leaves the
connection exactly as it was — every observable field unchanged. -/
theorem C9_check_conn_frame (c : ModelConn) (_h : (check_conn c).1 = 0) :
    (check_conn c).2 = c := by
  unfold check_conn
  split <;> rfl

/-- Witness for C9 on a concrete live connection. -/
theorem C9_check_conn_frame_witness :
    (check_conn test_conn).2 = test_conn :=
  C9_check_conn_frame test_conn rfl

/-! Theorems about the driver registry and the optional init slot. -/

theorem dbd_lookup_step (reg : ModelRegistry) (nm : String) (d : ModelDriver)
    (hfind : reg.drivers.lookup nm = some d) (hinit : d.init = none) :
    dbd_get_driver reg nm
      = (if nm ∈ reg.initialized then reg
          else { reg with initialized := nm :: reg.initialized }, some d) := by
  unfold dbd_get_driver
  rw [hfind]
  simp only [hinit]
  by_cases hmem : nm ∈ reg.initialized
  · rw [if_pos hmem, if_pos hmem]
  · rw [if_neg hmem, if_neg hmem]

/-- Claim C10: a driver whose init slot is absent (NULL) is valid under
the contract: its first use through the registry succeeds, treats the
missing init as a successful no-op (the process log records no init
effect), and later uses keep succeeding without ever invoking init. -/
theorem C10_absent_init (reg : ModelRegistry) (nm : String) (d : ModelDriver)
    (hfind : reg.drivers.lookup nm = some d) (hinit : d.init = none) :
    (dbd_get_driver reg nm).2 = some d
    ∧ (dbd_get_driver reg nm).1.log = reg.log
    ∧ dbd_get_driver (dbd_get_driver reg nm).1 nm
        = ((dbd_get_driver reg nm).1, some d) := by
  have h1 := dbd_lookup_step reg nm d hfind hinit
  by_cases hmem : nm ∈ reg.initialized
  · rw [if_pos hmem] at h1
    refine ⟨by rw [h1], by rw [h1], ?_⟩
    rw [h1]
    simpa using h1
  · rw [if_neg hmem] at h1
    have hf2 : ({ reg with initialized := nm :: reg.initialized } :
        ModelRegistry).drivers.lookup nm = some d := hfind
    have h2 := dbd_lookup_step { reg with initialized := nm :: reg.initialized }
      nm d hf2 hinit
    rw [if_pos (by simp)] at h2
    exact ⟨by rw [h1], by rw [h1], by rw [h1]; exact h2⟩

/-- Driver used by the C10 witness: a registered backend with no init. -/
def test_driver : ModelDriver where
  name := "testdb"
  init := none

/-- Registry used by the C10 witness. -/
def test_registry : ModelRegistry where
  drivers := [("testdb", test_driver)]
  initialized := []
  log := ["boot"]

/-- Witness for C10: first use of the init-less test driver succeeds and
leaves the process log untouched. -/
theorem C10_absent_init_witness :
    (dbd_get_driver test_registry "testdb").2 = some test_driver
    ∧ (dbd_get_driver test_registry "testdb").1.log = test_registry.log :=
  ⟨(C10_absent_init test_registry "testdb" test_driver rfl rfl).1,
   (C10_absent_init test_registry "testdb" test_driver rfl rfl).2.1⟩

end AprDbd
